import Mathlib

/-!
Verification development for the campus-security prescriptive model
(src/src/model.py, src/src/report.py, src/src/preprocess.py).

The pandas dataset is embedded as a list of rows with optional cell values
(`none` models a missing value / NaN) together with column-presence flags.
Python floats are modelled as exact rationals (`ℚ`); the trigonometric
feature transforms land in `ℝ`.  Fallible pandas operations (KeyError on a
missing column, ValueError from `idxmax` on an empty/all-NaN series) are
modelled with `Except String`.
-/

/-- Character comparison by code point, as Python compares characters. -/
def chLt (c d : Char) : Bool := c.toNat < d.toNat

/-- Lexicographic comparison of character lists (Python string `<`). -/
def strLtL : List Char → List Char → Bool
  | [], [] => false
  | [], _ :: _ => true
  | _ :: _, [] => false
  | c :: cs, d :: ds => if chLt c d then true else if chLt d c then false else strLtL cs ds

/-- String comparison by code points, the order pandas uses to sort string
group keys in `groupby(sort=True)`. -/
def strLt (a b : String) : Bool := strLtL a.data b.data

/-- Insert a key into a sorted list of distinct keys, keeping it sorted and
duplicate-free: the shape of the (key-sorted, unique) index produced by a
pandas `groupby`. -/
def sortedInsert (lt : α → α → Bool) [DecidableEq α] (x : α) : List α → List α
  | [] => [x]
  | y :: ys =>
    if x = y then y :: ys
    else if lt x y then x :: y :: ys
    else y :: sortedInsert lt x ys

/-- The sorted, duplicate-free list of group keys of a pandas groupby. -/
def groupKeys (lt : α → α → Bool) [DecidableEq α] (l : List α) : List α :=
  l.foldl (fun acc k => sortedInsert lt k acc) []

/-- Insert into an ascending list, keeping duplicates (for median/quantile). -/
def sortedInsertKeep (le : α → α → Bool) (x : α) : List α → List α
  | [] => [x]
  | y :: ys => if le x y then x :: y :: ys else y :: sortedInsertKeep le x ys

/-- Ascending sort of a multiset of rationals, duplicates kept. -/
def sortVals (l : List ℚ) : List ℚ :=
  l.foldl (fun acc v => sortedInsertKeep (fun a b => decide (a ≤ b)) v acc) []

/-- Mean of a list of (non-missing) values; `none` models the NaN a pandas
`mean` returns on an empty/all-NaN selection. -/
def seriesMean (l : List ℚ) : Option ℚ :=
  match l with
  | [] => none
  | _ => some (l.foldl (· + ·) 0 / l.length)

/-- Median as pandas computes it: midpoint of the sorted values. -/
def seriesMedian (l : List ℚ) : Option ℚ :=
  match sortVals l with
  | [] => none
  | v :: vs =>
    let s := v :: vs
    let n := s.length
    if n % 2 = 1 then some (s.getD (n / 2) 0)
    else some ((s.getD (n / 2 - 1) 0 + s.getD (n / 2) 0) / 2)

/-- Linear-interpolation quantile (pandas `Series.quantile`, default
interpolation), over the non-missing values; `none` on an empty series. -/
def seriesQuantile (q : ℚ) (l : List ℚ) : Option ℚ :=
  match sortVals l with
  | [] => none
  | v :: vs =>
    let s := v :: vs
    let n := s.length
    let h : ℚ := q * (n - 1)
    let i : ℕ := (⌊h⌋).toNat
    let lo := s.getD i 0
    let hi := s.getD (min (i + 1) (n - 1)) lo
    some (lo + (h - i) * (hi - lo))

/-- One derived rule of the prescriptive model: src/model.py builds these as
dicts with keys `finding`, `priority`, `prescriptions`. -/
structure Finding where
  finding : String
  priority : String
  prescriptions : List String
deriving DecidableEq

/-- PRESCRIPTIONS catalogue, src/model.py lines 26-66. -/
def PRESCRIPTIONS : List (String × List String) :=
  [ ("THEFT/ROBBERY",
      [ "🔒 Install CCTV cameras at parking lots, campus gates, and lecture hall corridors",
        "💡 Improve lighting in poorly lit areas (hostels, parking, shortcuts)",
        "🎒 Run 'Don't Leave Valuables Unattended' awareness campaigns",
        "🛡️  Deploy security at peak theft hours (7-9 AM, 12-2 PM, 5-7 PM)" ]),
    ("ASSAULT/VIOLENCE",
      [ "🚨 Install emergency call points / panic buttons at strategic locations",
        "👮 Increase visible security patrols during evening and night hours",
        "📵 Establish a zero-tolerance policy for fighting with immediate suspension",
        "🧠 Introduce conflict resolution and mental health support programs" ]),
    ("SEXUAL HARASSMENT/ASSAULT",
      [ "📢 Implement a clear, confidential sexual harassment reporting mechanism",
        "🏃 Provide student escort services for late-night movement on campus",
        "💡 Ensure hostel corridors and bathrooms are well-lit and monitored",
        "📚 Conduct mandatory consent and awareness training for all students" ]),
    ("VANDALISM/TRESPASSING",
      [ "🚧 Install perimeter fencing and controlled access gates",
        "📹 Use CCTV monitoring at campus boundaries",
        "🪪 Enforce strict ID card policies for all persons on campus",
        "🌙 Increase patrols at night when vandalism peaks" ]),
    ("DRUG-RELATED",
      [ "🔍 Conduct routine searches at campus entrances",
        "🤝 Partner with law enforcement for intelligence sharing",
        "📞 Create anonymous tip lines for reporting drug activity",
        "💊 Provide drug counseling and rehabilitation referrals for students" ]),
    ("HIGH_RISK_TIME_NIGHT",
      [ "🌃 Increase patrols between 8 PM - 2 AM (peak high-risk window)",
        "🔦 Ensure all campus pathways are adequately lit at night",
        "🚌 Provide safe late-night shuttle transport between hostels and key buildings" ]),
    ("HIGH_RISK_WEEKEND",
      [ "📅 Maintain full weekend security coverage (Saturdays and Sundays)",
        "🎉 Require event security plans for all weekend social gatherings" ]) ]

/-- Python `PRESCRIPTIONS.get(k, [])`. -/
def prescriptionsGet (k : String) : List String :=
  (PRESCRIPTIONS.lookup k).getD []

/-- Python `k in PRESCRIPTIONS`. -/
def prescriptionsMem (k : String) : Bool :=
  (PRESCRIPTIONS.lookup k).isSome

/-- One row of the processed dataset.  `none` in a cell is a missing value
(NaN); a cell's content is only meaningful when the column is present in the
surrounding `DataFrame`. -/
structure Row where
  hour : Option ℚ
  isWeekend : Option ℚ
  crimeCategory : Option String
  victAge : Option ℚ
  isCampusSpecific : Option ℚ
  highRisk : Option ℚ
deriving DecidableEq

/-- The tabular dataset handed to the core: column-presence flags plus rows. -/
structure DataFrame where
  hasHour : Bool
  hasWeekend : Bool
  hasCrimeCategory : Bool
  hasVictAge : Bool
  hasCampusSpecific : Bool
  hasHighRisk : Bool
  rows : List Row
deriving DecidableEq

/-- Decidable equality of embedded pandas results, for concrete evaluation. -/
instance {ε α : Type} [DecidableEq ε] [DecidableEq α] : DecidableEq (Except ε α) := fun x y =>
  match x, y with
  | .ok a, .ok b =>
    if h : a = b then .isTrue (by rw [h]) else .isFalse (fun he => h (Except.ok.inj he))
  | .error e, .error f =>
    if h : e = f then .isTrue (by rw [h]) else .isFalse (fun he => h (Except.error.inj he))
  | .ok _, .error _ => .isFalse (fun he => Except.noConfusion he)
  | .error _, .ok _ => .isFalse (fun he => Except.noConfusion he)

/-- Round half to even (the rounding of Python float formatting). -/
def roundHalfEven (x : ℚ) : ℤ :=
  let f := ⌊x⌋
  let r := x - f
  if r < 1/2 then f
  else if 1/2 < r then f + 1
  else if f % 2 = 0 then f else f + 1

/-- Format a nonnegative rational with one decimal digit, modelling the
Python format spec `:.1f` on the exact value. -/
def fmtPct1 (x : ℚ) : String :=
  let m := (roundHalfEven (x * 10)).toNat
  toString (m / 10) ++ "." ++ toString (m % 10)

/-- Insert thousands separators into a reversed digit list: the counter is
the number of digits left in the current group of three. -/
def commaRevGo : ℕ → List Char → List Char
  | _, [] => []
  | 0, c :: cs => ',' :: c :: commaRevGo 2 cs
  | k + 1, c :: cs => c :: commaRevGo k cs

/-- Model of the Python format spec `:,` (thousands separator) on a natural
number. -/
def fmtThousands (n : ℕ) : String :=
  String.mk (commaRevGo 3 (toString n).data.reverse).reverse

/-- Format a rational group key the way `f-string` formatting shows it in
finding texts (integers without a fractional part). -/
def fmtQ (q : ℚ) : String :=
  if q.den = 1 then toString q.num else toString q.num ++ "/" ++ toString q.den

/-- The KeyError raised when a required column is selected but absent. -/
def keyErrorHighRisk : String := "KeyError: HIGH_RISK"

/-- Sorted, distinct crime-category group keys (`df.groupby("CRIME_CATEGORY")`,
which drops NaN keys and sorts the remaining ones). -/
def catKeys (df : DataFrame) : List String :=
  groupKeys strLt (df.rows.filterMap Row.crimeCategory)

/-- Per-category mean of `HIGH_RISK` (NaN values skipped, NaN mean on an
all-NaN group). -/
def catGroupMean (df : DataFrame) (k : String) : Option ℚ :=
  seriesMean ((df.rows.filter (fun r => r.crimeCategory = some k)).filterMap Row.highRisk)

/-- The series `df.groupby("CRIME_CATEGORY")["HIGH_RISK"].mean()`. -/
def catGroupMeans (df : DataFrame) : List (String × Option ℚ) :=
  (catKeys df).map (fun k => (k, catGroupMean df k))

/-- Sorted distinct hour group keys (`df.groupby("HOUR")`). -/
def hourKeys (df : DataFrame) : List ℚ :=
  groupKeys (fun a b => decide (a < b)) (df.rows.filterMap Row.hour)

/-- Per-hour mean of `HIGH_RISK`. -/
def hourGroupMean (df : DataFrame) (h : ℚ) : Option ℚ :=
  seriesMean ((df.rows.filter (fun r => r.hour = some h)).filterMap Row.highRisk)

/-- The series `df.groupby("HOUR")["HIGH_RISK"].mean()`. -/
def hourGroupMeans (df : DataFrame) : List (ℚ × Option ℚ) :=
  (hourKeys df).map (fun h => (h, hourGroupMean df h))

/-- Scan for `Series.idxmax`: carries the best (label, value) seen so far and
replaces it only on a strictly greater value, so the first maximum wins. -/
def seriesIdxmaxGo (bk : String) (bv : ℚ) : List (String × Option ℚ) → String × ℚ
  | [] => (bk, bv)
  | (_, none) :: rest => seriesIdxmaxGo bk bv rest
  | (k, some v) :: rest =>
    if bv < v then seriesIdxmaxGo k v rest else seriesIdxmaxGo bk bv rest

/-- `Series.idxmax`: label of the first maximal non-NaN value; raises
`ValueError` on an empty or all-NaN series. -/
def seriesIdxmax : List (String × Option ℚ) → Except String String
  | [] => .error "ValueError: attempt to get argmax of an empty sequence"
  | (_, none) :: rest => seriesIdxmax rest
  | (k, some v) :: rest => .ok (seriesIdxmaxGo k v rest).1

/-- `Series.max` over the non-NaN values (NaN when there are none). -/
def seriesMax (l : List (α × Option ℚ)) : Option ℚ :=
  match l.filterMap Prod.snd with
  | [] => none
  | v :: vs => some (vs.foldl max v)

/-- Rule 1 of `generate_prescriptive_rules` (src/model.py lines 202-210):
dominant crime category by high-risk rate. -/
def dominantCategory (df : DataFrame) : Except String String :=
  seriesIdxmax (catGroupMeans df)

/-- Findings appended by rule 1; `HIGH_RISK` is selected from the groupby, so
its absence raises, and `idxmax` raises on an empty/all-NaN series. -/
def rule1 (df : DataFrame) : Except String (List Finding) :=
  if df.hasCrimeCategory then
    if df.hasHighRisk then
      match dominantCategory df with
      | .error e => .error e
      | .ok topCrime =>
        .ok [{ finding := "'" ++ topCrime ++ "' has the highest risk rate ("
                 ++ fmtPct1 (((seriesMax (catGroupMeans df)).getD 0) * 100) ++ "%)",
               priority := "HIGH",
               prescriptions := prescriptionsGet topCrime }]
    else .error keyErrorHighRisk
  else .ok []

/-- Hours whose high-risk rate strictly exceeds the 75th percentile of the
per-hour rates (src/model.py lines 214-215), in ascending hour order. -/
def peakHours (df : DataFrame) : List ℚ :=
  match seriesQuantile (3/4) ((hourGroupMeans df).filterMap Prod.snd) with
  | none => []
  | some q =>
    (hourGroupMeans df).filterMap (fun p =>
      match p.2 with
      | some v => if v > q then some p.1 else none
      | none => none)

/-- The `", ".join(f"{h}:00" ...)` formatting of the peak-hour list. -/
def hourListFmt (hs : List ℚ) : String :=
  String.intercalate ", " (hs.map (fun h => fmtQ h ++ ":00"))

/-- Rule 2 of `generate_prescriptive_rules` (src/model.py lines 213-221):
peak risk hours; appends a finding whenever `HOUR` is present. -/
def rule2 (df : DataFrame) : Except String (List Finding) :=
  if df.hasHour then
    if df.hasHighRisk then
      .ok [{ finding := "Highest risk hours: " ++ hourListFmt (peakHours df),
             priority := "HIGH",
             prescriptions := prescriptionsGet "HIGH_RISK_TIME_NIGHT" }]
    else .error keyErrorHighRisk
  else .ok []

/-- Mean high-risk rate over weekday rows (`df[df["IS_WEEKEND"]==0]`; a NaN
weekend flag compares unequal to 0). -/
def weekdayRisk (df : DataFrame) : Option ℚ :=
  seriesMean ((df.rows.filter (fun r => r.isWeekend = some 0)).filterMap Row.highRisk)

/-- Mean high-risk rate over weekend rows (`df[df["IS_WEEKEND"]==1]`). -/
def weekendRisk (df : DataFrame) : Option ℚ :=
  seriesMean ((df.rows.filter (fun r => r.isWeekend = some 1)).filterMap Row.highRisk)

/-- Rule 3 of `generate_prescriptive_rules` (src/model.py lines 224-232):
weekend skew; the float literal 1.1 is the rational 11/10, and a NaN mean
makes the comparison false. -/
def rule3Findings (df : DataFrame) : List Finding :=
  match weekdayRisk df, weekendRisk df with
  | some wd, some we =>
    if we > wd * (11/10) then
      [{ finding := "Weekend risk (" ++ fmtPct1 (we * 100)
           ++ "%) is higher than weekday risk (" ++ fmtPct1 (wd * 100) ++ "%)",
         priority := "MEDIUM",
         prescriptions := prescriptionsGet "HIGH_RISK_WEEKEND" }]
    else []
  | _, _ => []

/-- The column checks wrapped around rule 3: selecting `HIGH_RISK` from the
weekday/weekend slices raises when that column is absent. -/
def rule3 (df : DataFrame) : Except String (List Finding) :=
  if df.hasWeekend then
    if df.hasHighRisk then .ok (rule3Findings df)
    else .error keyErrorHighRisk
  else .ok []

/-- Stable descending insertion by count (a new entry goes after all entries
with a count at least as large). -/
def insDesc (x : String × ℕ) : List (String × ℕ) → List (String × ℕ)
  | [] => [x]
  | y :: ys => if y.2 < x.2 then x :: y :: ys else y :: insDesc x ys

/-- First-occurrence deduplication helper. -/
def dedupFirstAux [DecidableEq α] (seen : List α) : List α → List α
  | [] => []
  | x :: xs => if x ∈ seen then dedupFirstAux seen xs else x :: dedupFirstAux (x :: seen) xs

/-- Deduplicate a list keeping first occurrences. -/
def dedupFirst [DecidableEq α] (l : List α) : List α := dedupFirstAux [] l

/-- The series `df["CRIME_CATEGORY"].value_counts()`: occurrence counts of the
non-NaN categories, sorted by count descending (stably, so equal counts keep
first-appearance order). -/
def valueCounts (df : DataFrame) : List (String × ℕ) :=
  let ks := df.rows.filterMap Row.crimeCategory
  ((dedupFirst ks).map (fun k => (k, ks.count k))).foldl (fun acc p => insDesc p acc) []

/-- `value_counts().head(3)`. -/
def topCrimeCounts (df : DataFrame) : List (String × ℕ) := (valueCounts df).take 3

/-- `crime_counts.max()` over the head-3 series (0 only when it is empty, in
which case the rule-4 loop body never runs). -/
def topCountsMax (df : DataFrame) : ℕ :=
  (topCrimeCounts df).foldr (fun p m => max p.2 m) 0

/-- Rule 4 of `generate_prescriptive_rules` (src/model.py lines 235-243):
top-volume categories with catalogue entries. -/
def rule4Findings (df : DataFrame) : List Finding :=
  (topCrimeCounts df).filterMap (fun p =>
    match PRESCRIPTIONS.lookup p.1 with
    | some ps =>
      some { finding := "'" ++ p.1 ++ "' accounts for " ++ fmtThousands p.2 ++ " incidents",
             priority := if p.2 < topCountsMax df then "MEDIUM" else "HIGH",
             prescriptions := ps }
    | none => none)

/-- The column check wrapped around rule 4. -/
def rule4 (df : DataFrame) : Except String (List Finding) :=
  if df.hasCrimeCategory then .ok (rule4Findings df) else .ok []

/-- The rule deriver `generate_prescriptive_rules` (src/model.py lines
193-246): the four sub-rules run in order and their findings are appended in
evaluation order, without any sort. -/
def generate_prescriptive_rules (df : DataFrame) : Except String (List Finding) := do
  let r1 ← rule1 df
  let r2 ← rule2 df
  let r3 ← rule3 df
  let r4 ← rule4 df
  pure (r1 ++ r2 ++ r3 ++ r4)

/-- Training-time cyclical hour encoding `np.sin(2 * np.pi * df["HOUR"] / 24)`
(src/model.py line 78). -/
noncomputable def hourSin (h : ℚ) : ℝ := Real.sin (2 * Real.pi * h / 24)

/-- Training-time cyclical hour encoding `np.cos(2 * np.pi * df["HOUR"] / 24)`
(src/model.py line 79). -/
noncomputable def hourCos (h : ℚ) : ℝ := Real.cos (2 * Real.pi * h / 24)

/-- Inference-time hour encoding `np.sin(2 * np.pi * hour / 24)`
(src/report.py line 28). -/
noncomputable def reportHourSin (h : ℚ) : ℝ := Real.sin (2 * Real.pi * h / 24)

/-- Inference-time hour encoding `np.cos(2 * np.pi * hour / 24)`
(src/report.py line 29). -/
noncomputable def reportHourCos (h : ℚ) : ℝ := Real.cos (2 * Real.pi * h / 24)

/-- The feature-name list accumulated by `prepare_features` (src/model.py
lines 74-102), in the order the column checks run. -/
def featuresRaw (df : DataFrame) : List String :=
  (if df.hasHour then ["HOUR", "HOUR_SIN", "HOUR_COS"] else []) ++
  (if df.hasWeekend then ["IS_WEEKEND"] else []) ++
  (if df.hasCrimeCategory then ["CRIME_CAT_ENC"] else []) ++
  (if df.hasVictAge then ["VICT_AGE"] else []) ++
  (if df.hasCampusSpecific then ["IS_CAMPUS_SPECIFIC"] else [])

/-- The dataframe's columns after `prepare_features` has added its derived
columns (`HOUR_SIN`, `HOUR_COS`, `CRIME_CAT_ENC`). -/
def columnsAfterTransforms (df : DataFrame) : List String :=
  (if df.hasHour then ["HOUR", "HOUR_SIN", "HOUR_COS"] else []) ++
  (if df.hasWeekend then ["IS_WEEKEND"] else []) ++
  (if df.hasCrimeCategory then ["CRIME_CATEGORY", "CRIME_CAT_ENC"] else []) ++
  (if df.hasVictAge then ["VICT_AGE"] else []) ++
  (if df.hasCampusSpecific then ["IS_CAMPUS_SPECIFIC"] else []) ++
  (if df.hasHighRisk then ["HIGH_RISK"] else [])

/-- The final feature-name order: `features = [f for f in features if f in
df.columns]` (src/model.py line 106). -/
def prepareFeatureNames (df : DataFrame) : List String :=
  (featuresRaw df).filter (fun f => f ∈ columnsAfterTransforms df)

/-- `LabelEncoder.fit` on `df["CRIME_CATEGORY"].fillna("OTHER")`: the sorted
list of distinct labels. -/
def labelClasses (df : DataFrame) : List String :=
  groupKeys strLt (df.rows.map (fun r => r.crimeCategory.getD "OTHER"))

/-- `LabelEncoder.transform`: the index of a label among the sorted classes. -/
def catCode (df : DataFrame) (c : String) : ℕ :=
  (labelClasses df).indexOf c

/-- `df["VICT_AGE"].median()` over the non-missing ages. -/
def victAgeMedian (df : DataFrame) : Option ℚ :=
  seriesMedian (df.rows.filterMap Row.victAge)

/-- `pd.to_numeric(...).fillna(median)` then `.clip(0, 100)` (src/model.py
lines 96-97); the value stays missing when the median itself is NaN. -/
def victAgeFilled (df : DataFrame) (r : Row) : Option ℚ :=
  (match r.victAge with
   | some v => some v
   | none => victAgeMedian df).map (fun v => min (max v 0) 100)

/-- The value of one selected feature column at one row, before the final
`fillna(0)`; `none` is a missing value. -/
noncomputable def rawCell (df : DataFrame) (r : Row) : String → Option ℝ
  | "HOUR" => r.hour.map (fun h => (h : ℝ))
  | "HOUR_SIN" => r.hour.map hourSin
  | "HOUR_COS" => r.hour.map hourCos
  | "IS_WEEKEND" => r.isWeekend.map (fun v => (v : ℝ))
  | "CRIME_CAT_ENC" => some ((catCode df (r.crimeCategory.getD "OTHER") : ℝ))
  | "VICT_AGE" => (victAgeFilled df r).map (fun v => (v : ℝ))
  | "IS_CAMPUS_SPECIFIC" => r.isCampusSpecific.map (fun v => (v : ℝ))
  | _ => none

/-- The selected training frame `df[features]` before `fillna(0)`. -/
noncomputable def selectedMatrix (df : DataFrame) : List (List (Option ℝ)) :=
  df.rows.map (fun r => (prepareFeatureNames df).map (rawCell df r))

/-- `X = df[features].fillna(0)` (src/model.py line 107). -/
noncomputable def featureMatrix (df : DataFrame) : List (List ℝ) :=
  (selectedMatrix df).map (fun row => row.map (fun c => c.getD 0))

/-- Truncation toward zero, the `astype(int)` cast of a float. -/
def ratTrunc (q : ℚ) : ℤ := if 0 ≤ q then ⌊q⌋ else ⌈q⌉

/-- `y = df["HIGH_RISK"].fillna(0).astype(int)` (src/model.py line 108). -/
def ySeries (df : DataFrame) : List ℤ :=
  df.rows.map (fun r => ratTrunc ((r.highRisk).getD 0))

/-- `prepare_features` (src/model.py lines 72-111): the encoded matrix, the
target, the feature-name order and the fitted category encoder; selecting the
absent `HIGH_RISK` column raises. -/
noncomputable def prepare_features (df : DataFrame) :
    Except String (List (List ℝ) × List ℤ × List String × Option (List String)) :=
  if df.hasHighRisk then
    .ok (featureMatrix df, ySeries df, prepareFeatureNames df,
         if df.hasCrimeCategory then some (labelClasses df) else none)
  else .error keyErrorHighRisk

/-- Risk-tier bucketing (src/report.py line 48); the float literals 0.6 and
0.3 denote the rationals 3/5 and 3/10. -/
def riskLevel (p : ℚ) : String :=
  if p > 3/5 then "🔴 HIGH RISK" else if p > 3/10 then "🟡 MODERATE" else "🟢 LOW"

/-- Column names of the inference-time input frame, in insertion order
(src/report.py lines 32-41). -/
def inferenceInputColumns : List String :=
  ["hour", "hour_sin", "hour_cos", "is_weekend", "lat", "lon", "vict_age",
   "is_campus_specific"]

/-- Pandas column selection `frame[cols]`: KeyError (carrying the missing
names) when any requested column is absent. -/
def selectColumns (wanted avail : List String) : Except (List String) (List String) :=
  match wanted.filter (fun w => !(avail.contains w)) with
  | [] => .ok wanted
  | missing => .error missing

/-- The reindexing step `input_df = input_df[features]` (src/report.py
line 44) against the inference input frame. -/
def reorderInputColumns (features : List String) : Except (List String) (List String) :=
  selectColumns features inferenceInputColumns

/-- First generic message printed for a non-HIGH tier (src/report.py line 72). -/
def routineMsg1 : String := "✅ Routine patrols sufficient."

/-- Second generic message printed for a non-HIGH tier (src/report.py line 73). -/
def routineMsg2 : String := "💡 Maintain standard 'See Something, Say Something' visibility."

/-- The recommended-action lines printed by `generate_security_report`
(src/report.py lines 60-73), as a function of the query hour and the
predicted probability, over the PRESCRIPTIONS catalogue. -/
def recommendations (hour : ℤ) (riskProb : ℚ) : List String :=
  if riskLevel riskProb = "🔴 HIGH RISK" then
    (if hour ≥ 18 ∨ hour ≤ 5 then prescriptionsGet "HIGH_RISK_TIME_NIGHT" else [])
      ++ (prescriptionsGet "THEFT/ROBBERY").take 2
      ++ (prescriptionsGet "ASSAULT/VIOLENCE").take 1
  else [routineMsg1, routineMsg2]

/-- A value stored in the pickled model bundle. -/
inductive BundleValue where
  | classifier
  | featureList (fs : List String)
  | ruleList (rs : List Finding)
  | encodingMap (classes : List String)
deriving DecidableEq

/-- The dict pickled by `run` (src/model.py line 287):
`{"model": model, "features": features, "rules": rules}` — the category
encoder returned by `prepare_features` is not among the entries. -/
def persistBundle (features : List String) (rules : List Finding) :
    List (String × BundleValue) :=
  [("model", .classifier), ("features", .featureList features),
   ("rules", .ruleList rules)]

/-- Dict key access `bundle[k]`: KeyError (carrying the key) when absent. -/
def bundleLookup (b : List (String × BundleValue)) (k : String) :
    Except String BundleValue :=
  match b.lookup k with
  | some v => .ok v
  | none => .error k

/-- The loads performed by `generate_security_report` (src/report.py lines
23-25): `bundle["model"]`, `bundle["features"]`, `bundle["prescriptions"]`. -/
def loadBundleComponents (b : List (String × BundleValue)) :
    Except String (BundleValue × BundleValue × BundleValue) := do
  let m ← bundleLookup b "model"
  let f ← bundleLookup b "features"
  let p ← bundleLookup b "prescriptions"
  pure (m, f, p)

/-- Whether a bundle value is a persisted category-encoding map. -/
def isEncodingMap : BundleValue → Bool
  | .encodingMap _ => true
  | _ => false

/-- The observable stages of `train_model` (src/model.py lines 114-139), in
source order: the label-diversity check (line 118), the stratified
`train_test_split` (line 121), the classifier `fit` (line 133) and the
`cross_val_score` validation (line 136). -/
inductive TrainEvent where
  | diversityCheck
  | trainTestSplit
  | classifierFit
  | crossValidation
deriving DecidableEq

/-- `y.nunique()`: the number of distinct values of the target column. -/
def nunique (y : List ℤ) : ℕ := (dedupFirst y).length

/-- The message of the `ValueError` raised on single-class training data
(src/model.py line 119), the spec's `InsufficientLabelDiversity`. -/
def insufficientLabelDiversityMsg : String :=
  "Target variable has only one class. Check preprocessing."

/-- `train_model` (src/model.py lines 114-139) as a trace of stages plus the
outcome: the diversity check runs first and aborts before the split and the
fit when the target has fewer than two distinct values. -/
def train_model (y : List ℤ) : List TrainEvent × Except String Unit :=
  if nunique y < 2 then
    ([.diversityCheck], .error insufficientLabelDiversityMsg)
  else
    ([.diversityCheck, .trainTestSplit, .classifierFit, .crossValidation], .ok ())

/-- The HIGH tier is exactly a probability strictly above 0.6. -/
lemma riskLevel_eq_high_iff (p : ℚ) : riskLevel p = "🔴 HIGH RISK" ↔ 3/5 < p := by
  unfold riskLevel
  split_ifs with h1 h2
  · exact iff_of_true rfl h1
  · exact iff_of_false (by decide) h1
  · exact iff_of_false (by decide) h1

/-- The MODERATE tier is exactly a probability in (0.3, 0.6]. -/
lemma riskLevel_eq_moderate_iff (p : ℚ) :
    riskLevel p = "🟡 MODERATE" ↔ 3/10 < p ∧ p ≤ 3/5 := by
  unfold riskLevel
  split_ifs with h1 h2
  · exact iff_of_false (by decide) (fun hc => absurd h1 (not_lt.mpr hc.2))
  · exact iff_of_true rfl ⟨h2, le_of_not_lt h1⟩
  · exact iff_of_false (by decide) (fun hc => absurd hc.1 h2)

/-- The LOW tier is exactly a probability at most 0.3. -/
lemma riskLevel_eq_low_iff (p : ℚ) : riskLevel p = "🟢 LOW" ↔ p ≤ 3/10 := by
  unfold riskLevel
  split_ifs with h1 h2
  · exact iff_of_false (by decide)
      (fun hl => absurd h1 (not_lt.mpr (le_trans hl (by norm_num))))
  · exact iff_of_false (by decide) (fun hl => absurd h2 (not_lt.mpr hl))
  · exact iff_of_true rfl (le_of_not_lt h2)

/-- C3 (counterexample): at probability exactly 0.3 the code assigns tier
LOW, not MODERATE as the claim states. -/
theorem C3_boundary_counterexample :
    riskLevel (3/10) = "🟢 LOW" ∧ ("🟢 LOW" : String) ≠ "🟡 MODERATE" :=
  ⟨(riskLevel_eq_low_iff (3/10)).mpr le_rfl, by decide⟩

/-- C3 (amended): the tier is HIGH iff p > 0.6, MODERATE iff 0.3 < p ≤ 0.6,
and LOW iff p ≤ 0.3; in particular p = 0.6 is MODERATE (strict upper
comparison) but p = 0.3 is LOW, not MODERATE, because the lower comparison
`p > 0.3` is also strict. -/
theorem C3_tier_thresholds (p : ℚ) :
    (riskLevel p = "🔴 HIGH RISK" ↔ 3/5 < p) ∧
    (riskLevel p = "🟡 MODERATE" ↔ 3/10 < p ∧ p ≤ 3/5) ∧
    (riskLevel p = "🟢 LOW" ↔ p ≤ 3/10) :=
  ⟨riskLevel_eq_high_iff p, riskLevel_eq_moderate_iff p, riskLevel_eq_low_iff p⟩

/-- C5: training on a target with fewer than two distinct values fails with
the insufficient-label-diversity error before the split and the fit, and a
target with two or more distinct values passes the check. -/
theorem C5_label_diversity_check (y : List ℤ) :
    (nunique y < 2 →
      train_model y = ([.diversityCheck], .error insufficientLabelDiversityMsg) ∧
      TrainEvent.trainTestSplit ∉ (train_model y).1 ∧
      TrainEvent.classifierFit ∉ (train_model y).1) ∧
    (2 ≤ nunique y → (train_model y).2 = .ok ()) := by
  unfold train_model
  split_ifs with h
  · exact ⟨fun _ => ⟨rfl, by decide, by decide⟩, fun h2 => absurd h (not_lt.mpr h2)⟩
  · exact ⟨fun h1 => absurd h1 h, fun _ => rfl⟩

/-- C5 (witness): a single-class target aborts with the error; a two-class
target passes the diversity check. -/
theorem C5_label_diversity_check_witness :
    train_model [0, 0] = ([.diversityCheck], .error insufficientLabelDiversityMsg) ∧
    (train_model [0, 1]).2 = .ok () :=
  ⟨((C5_label_diversity_check [0, 0]).1 (by decide)).1,
   (C5_label_diversity_check [0, 1]).2 (by decide)⟩

/-- C9: the training-time and inference-time cyclical hour encodings are the
same functions, and the encoding lies on the unit circle for every hour of
the day. -/
theorem C9_cyclical_hour_encoding (h : ℚ) (_h0 : 0 ≤ h) (_h23 : h ≤ 23) :
    hourSin h = reportHourSin h ∧ hourCos h = reportHourCos h ∧
    hourSin h ^ 2 + hourCos h ^ 2 = 1 :=
  ⟨rfl, rfl, Real.sin_sq_add_cos_sq _⟩

/-- C9 (witness): the encoding identity at hour 3. -/
theorem C9_cyclical_hour_encoding_witness :
    hourSin 3 = reportHourSin 3 ∧ hourCos 3 = reportHourCos 3 ∧
    hourSin 3 ^ 2 + hourCos 3 ^ 2 = 1 :=
  C9_cyclical_hour_encoding 3 (by norm_num) (by norm_num)

/-- A fully populated one-row dataset (all recognized columns present). -/
def exRowFull : Row :=
  { hour := some 23, isWeekend := some 1, crimeCategory := some "THEFT/ROBBERY",
    victAge := some 20, isCampusSpecific := some 1, highRisk := some 1 }

/-- A dataset with every recognized column present. -/
def exDfFull : DataFrame :=
  { hasHour := true, hasWeekend := true, hasCrimeCategory := true,
    hasVictAge := true, hasCampusSpecific := true, hasHighRisk := true,
    rows := [exRowFull] }

/-- C1: on a dataset with all columns the training encoder fixes the
uppercase feature order `HOUR, HOUR_SIN, HOUR_COS, IS_WEEKEND,
CRIME_CAT_ENC, VICT_AGE, IS_CAMPUS_SPECIFIC`, and the inference-time
reindexing `input_df[features]` raises a KeyError on every one of them: the
inference frame only has the lowercase columns `hour, hour_sin, hour_cos,
is_weekend, lat, lon, vict_age, is_campus_specific` and no category column
at all, so inference never reproduces the training-time encoding. -/
theorem C1_inference_reindex_keyerror :
    prepareFeatureNames exDfFull =
      ["HOUR", "HOUR_SIN", "HOUR_COS", "IS_WEEKEND", "CRIME_CAT_ENC",
       "VICT_AGE", "IS_CAMPUS_SPECIFIC"] ∧
    reorderInputColumns (prepareFeatureNames exDfFull) =
      .error ["HOUR", "HOUR_SIN", "HOUR_COS", "IS_WEEKEND", "CRIME_CAT_ENC",
              "VICT_AGE", "IS_CAMPUS_SPECIFIC"] := by
  constructor
  · rfl
  · rfl

/-- C2: the bundle pickled by a training run has exactly the keys `model`,
`features`, `rules` — no persisted category-encoding map — and the inference
engine's load of `bundle["prescriptions"]` raises a KeyError, whatever
feature list and rule list were trained. -/
theorem C2_bundle_contents_mismatch (features : List String) (rules : List Finding) :
    (persistBundle features rules).map Prod.fst = ["model", "features", "rules"] ∧
    (persistBundle features rules).all (fun p => !(isEncodingMap p.2)) = true ∧
    loadBundleComponents (persistBundle features rules) = .error "prescriptions" :=
  ⟨rfl, rfl, rfl⟩

/-- C6 (counterexample): at a non-HIGH tier (probability 0.1, tier LOW) the
code emits two generic messages, not a single routine-patrols message. -/
theorem C6_single_message_counterexample :
    recommendations 10 (1/10) = [routineMsg1, routineMsg2] ∧
    (recommendations 10 (1/10)).length = 2 := by
  have hne : ¬(riskLevel (1/10) = "🔴 HIGH RISK") :=
    fun he => absurd ((riskLevel_eq_high_iff (1/10)).mp he) (by norm_num)
  unfold recommendations
  rw [if_neg hne]
  exact ⟨rfl, rfl⟩

/-- C6 (amended): at tier HIGH the recommendation list starts with the
night-time prescriptions exactly when hour ≥ 18 or hour ≤ 5, followed by the
first 2 theft/robbery entries and the first assault/violence entry; at a
non-HIGH tier the output is the two fixed generic messages (routine patrols
plus the visibility reminder), and in every case it is non-empty. -/
theorem C6_recommendation_assembly (hour : ℤ) (p : ℚ) :
    (3/5 < p →
      recommendations hour p =
        (if 18 ≤ hour ∨ hour ≤ 5 then prescriptionsGet "HIGH_RISK_TIME_NIGHT" else [])
          ++ (prescriptionsGet "THEFT/ROBBERY").take 2
          ++ (prescriptionsGet "ASSAULT/VIOLENCE").take 1) ∧
    (p ≤ 3/5 → recommendations hour p = [routineMsg1, routineMsg2]) ∧
    recommendations hour p ≠ [] := by
  refine ⟨?_, ?_, ?_⟩
  · intro hp
    unfold recommendations
    rw [if_pos ((riskLevel_eq_high_iff p).mpr hp)]
  · intro hp
    have hne : ¬(riskLevel p = "🔴 HIGH RISK") :=
      fun he => absurd ((riskLevel_eq_high_iff p).mp he) (not_lt.mpr hp)
    unfold recommendations
    rw [if_neg hne]
  · unfold recommendations
    split_ifs <;> decide

/-- C6 (witness): a HIGH-probability night query gets the night-first list;
a LOW-probability day query gets the two generic messages. -/
theorem C6_recommendation_assembly_witness :
    recommendations 23 (7/10) =
      prescriptionsGet "HIGH_RISK_TIME_NIGHT"
        ++ (prescriptionsGet "THEFT/ROBBERY").take 2
        ++ (prescriptionsGet "ASSAULT/VIOLENCE").take 1 ∧
    recommendations 10 (1/10) = [routineMsg1, routineMsg2] ∧
    recommendations 10 (1/10) ≠ [] := by
  refine ⟨?_, (C6_recommendation_assembly 10 (1/10)).2.1 (by norm_num),
    (C6_recommendation_assembly 10 (1/10)).2.2⟩
  have h := (C6_recommendation_assembly 23 (7/10)).1 (by norm_num)
  rw [if_pos (by decide : (18:ℤ) ≤ 23 ∨ (23:ℤ) ≤ 5)] at h
  exact h

/-- C10: on a dataset with the target column, `prepare_features` succeeds;
every cell of the selected feature frame that is missing is replaced by the
constant 0 in `X` and every present cell is passed through unchanged, and a
missing `HIGH_RISK` label becomes 0 while a present one is just cast to
int. -/
theorem C10_fillna_zero (df : DataFrame) (h : df.hasHighRisk = true) :
    prepare_features df =
      .ok (featureMatrix df, ySeries df, prepareFeatureNames df,
           if df.hasCrimeCategory then some (labelClasses df) else none) ∧
    List.Forall₂ (fun srow xrow =>
        List.Forall₂ (fun c x => (c = none → x = 0) ∧ ∀ v, c = some v → x = v) srow xrow)
      (selectedMatrix df) (featureMatrix df) ∧
    List.Forall₂ (fun r yi =>
        (r.highRisk = none → yi = 0) ∧ ∀ v, r.highRisk = some v → yi = ratTrunc v)
      df.rows (ySeries df) := by
  refine ⟨by simp [prepare_features, h], ?_, ?_⟩
  · show List.Forall₂ _ (selectedMatrix df) ((selectedMatrix df).map _)
    rw [List.forall₂_map_right_iff, List.forall₂_same]
    intro row _
    rw [List.forall₂_map_right_iff, List.forall₂_same]
    intro c _
    refine ⟨fun hcn => ?_, fun v hcv => ?_⟩
    · rw [hcn]; rfl
    · rw [hcv]; rfl
  · show List.Forall₂ _ df.rows (df.rows.map _)
    rw [List.forall₂_map_right_iff, List.forall₂_same]
    intro r _
    refine ⟨fun hn => ?_, fun v hv => ?_⟩
    · rw [hn]; show ratTrunc ((none : Option ℚ).getD 0) = 0; simp [ratTrunc]
    · rw [hv]; rfl

/-- A row with a missing victim age, category and label. -/
def exRowMissing : Row :=
  { hour := some 2, isWeekend := none, crimeCategory := none,
    victAge := none, isCampusSpecific := some 0, highRisk := none }

/-- An all-columns dataset whose single row has several missing cells. -/
def exDf10 : DataFrame :=
  { hasHour := true, hasWeekend := true, hasCrimeCategory := true,
    hasVictAge := true, hasCampusSpecific := true, hasHighRisk := true,
    rows := [exRowMissing] }

/-- C10 (witness): the fill-with-zero contract at a concrete dataset with
missing cells. -/
theorem C10_fillna_zero_witness :
    prepare_features exDf10 =
      .ok (featureMatrix exDf10, ySeries exDf10, prepareFeatureNames exDf10,
           if exDf10.hasCrimeCategory then some (labelClasses exDf10) else none) ∧
    List.Forall₂ (fun srow xrow =>
        List.Forall₂ (fun c x => (c = none → x = 0) ∧ ∀ v, c = some v → x = v) srow xrow)
      (selectedMatrix exDf10) (featureMatrix exDf10) ∧
    List.Forall₂ (fun r yi =>
        (r.highRisk = none → yi = 0) ∧ ∀ v, r.highRisk = some v → yi = ratTrunc v)
      exDf10.rows (ySeries exDf10) :=
  C10_fillna_zero exDf10 rfl

/-- `idxmax` succeeds on any series with at least one non-NaN value. -/
lemma seriesIdxmax_ok_of_any_isSome :
    ∀ l : List (String × Option ℚ), l.any (fun p => p.2.isSome) = true →
    ∃ k, seriesIdxmax l = .ok k := by
  intro l
  induction l with
  | nil => intro h; simp at h
  | cons p rest ih =>
    obtain ⟨k0, ov⟩ := p
    cases ov with
    | none => intro h; exact ih (by simpa using h)
    | some v => intro _; exact ⟨_, rfl⟩

/-- Rule 3 appends at most one finding. -/
lemma rule3Findings_length_le (df : DataFrame) : (rule3Findings df).length ≤ 1 := by
  unfold rule3Findings
  rcases weekdayRisk df with _ | wd <;> rcases weekendRisk df with _ | we <;> simp
  split_ifs <;> simp

/-- Rule 4 appends at most three findings. -/
lemma rule4Findings_length_le (df : DataFrame) : (rule4Findings df).length ≤ 3 :=
  le_trans (List.length_filterMap_le _ _) (List.length_take_le 3 (valueCounts df))

/-- A dataset that has the crime-category column but no `HIGH_RISK` column. -/
def exDfNoHighRisk : DataFrame :=
  { hasHour := false, hasWeekend := false, hasCrimeCategory := true,
    hasVictAge := false, hasCampusSpecific := false, hasHighRisk := false,
    rows := [{ hour := none, isWeekend := none, crimeCategory := some "THEFT/ROBBERY",
               victAge := none, isCampusSpecific := none, highRisk := none }] }

/-- C4 (counterexample): the rule deriver is not raise-free — on a dataset
with a crime-category column but no `HIGH_RISK` column, the dominant-category
sub-rule's `groupby(...)["HIGH_RISK"]` selection raises a KeyError instead of
appending nothing. -/
theorem C4_deriver_raises_counterexample :
    generate_prescriptive_rules exDfNoHighRisk = .error keyErrorHighRisk := rfl

/-- C4 (amended): on a dataset that has the `HIGH_RISK` column and — when the
crime-category column is present — at least one group with a non-NaN
high-risk rate, the deriver raises nothing and returns the sub-rules'
findings concatenated in evaluation order (dominant-category, peak-hour,
weekend-skew, top-volume; never sorted), 0 to 6 findings in total; each of
the three column-guarded sub-rules appends nothing when its column is
absent. -/
theorem C4_deriver_shape (df : DataFrame) (hHR : df.hasHighRisk = true)
    (hDom : df.hasCrimeCategory = true →
      (catGroupMeans df).any (fun p => p.2.isSome) = true) :
    ∃ r1 r2 r3 r4,
      rule1 df = .ok r1 ∧ rule2 df = .ok r2 ∧ rule3 df = .ok r3 ∧ rule4 df = .ok r4 ∧
      generate_prescriptive_rules df = .ok (r1 ++ r2 ++ r3 ++ r4) ∧
      r1.length ≤ 1 ∧ r2.length ≤ 1 ∧ r3.length ≤ 1 ∧ r4.length ≤ 3 ∧
      (r1 ++ r2 ++ r3 ++ r4).length ≤ 6 ∧
      (df.hasCrimeCategory = false → r1 = [] ∧ r4 = []) ∧
      (df.hasHour = false → r2 = []) ∧
      (df.hasWeekend = false → r3 = []) := by
  obtain ⟨r1, hr1, hr1len, hr1nil⟩ :
      ∃ r1, rule1 df = .ok r1 ∧ r1.length ≤ 1 ∧ (df.hasCrimeCategory = false → r1 = []) := by
    rcases hc : df.hasCrimeCategory with _ | _
    · exact ⟨[], by simp [rule1, hc], by simp, fun _ => rfl⟩
    · obtain ⟨k, hk⟩ := seriesIdxmax_ok_of_any_isSome _ (hDom hc)
      refine ⟨[{ finding := "'" ++ k ++ "' has the highest risk rate ("
                   ++ fmtPct1 (((seriesMax (catGroupMeans df)).getD 0) * 100) ++ "%)",
                 priority := "HIGH", prescriptions := prescriptionsGet k }],
              ?_, by simp, by simp [hc]⟩
      simp [rule1, hc, hHR, dominantCategory, hk]
  obtain ⟨r2, hr2, hr2len, hr2nil⟩ :
      ∃ r2, rule2 df = .ok r2 ∧ r2.length ≤ 1 ∧ (df.hasHour = false → r2 = []) := by
    rcases hh : df.hasHour with _ | _
    · exact ⟨[], by simp [rule2, hh], by simp, fun _ => rfl⟩
    · exact ⟨[{ finding := "Highest risk hours: " ++ hourListFmt (peakHours df),
                priority := "HIGH",
                prescriptions := prescriptionsGet "HIGH_RISK_TIME_NIGHT" }],
             by simp [rule2, hh, hHR], by simp, by simp [hh]⟩
  obtain ⟨r3, hr3, hr3len, hr3nil⟩ :
      ∃ r3, rule3 df = .ok r3 ∧ r3.length ≤ 1 ∧ (df.hasWeekend = false → r3 = []) := by
    rcases hw : df.hasWeekend with _ | _
    · exact ⟨[], by simp [rule3, hw], by simp, fun _ => rfl⟩
    · exact ⟨rule3Findings df, by simp [rule3, hw, hHR], rule3Findings_length_le df,
             by simp [hw]⟩
  obtain ⟨r4, hr4, hr4len, hr4nil⟩ :
      ∃ r4, rule4 df = .ok r4 ∧ r4.length ≤ 3 ∧ (df.hasCrimeCategory = false → r4 = []) := by
    rcases hc : df.hasCrimeCategory with _ | _
    · exact ⟨[], by simp [rule4, hc], by simp, fun _ => rfl⟩
    · exact ⟨rule4Findings df, by simp [rule4, hc], rule4Findings_length_le df,
             by simp [hc]⟩
  refine ⟨r1, r2, r3, r4, hr1, hr2, hr3, hr4, ?_, hr1len, hr2len, hr3len, hr4len, ?_,
          fun hcf => ⟨hr1nil hcf, hr4nil hcf⟩, hr2nil, hr3nil⟩
  · unfold generate_prescriptive_rules
    rw [hr1, hr2, hr3, hr4]
    rfl
  · simp only [List.length_append]
    omega

/-- C4 (witness): the deriver shape at the concrete all-columns dataset. -/
theorem C4_deriver_shape_witness :
    ∃ r1 r2 r3 r4,
      rule1 exDfFull = .ok r1 ∧ rule2 exDfFull = .ok r2 ∧ rule3 exDfFull = .ok r3 ∧
      rule4 exDfFull = .ok r4 ∧
      generate_prescriptive_rules exDfFull = .ok (r1 ++ r2 ++ r3 ++ r4) ∧
      r1.length ≤ 1 ∧ r2.length ≤ 1 ∧ r3.length ≤ 1 ∧ r4.length ≤ 3 ∧
      (r1 ++ r2 ++ r3 ++ r4).length ≤ 6 ∧
      (exDfFull.hasCrimeCategory = false → r1 = [] ∧ r4 = []) ∧
      (exDfFull.hasHour = false → r2 = []) ∧
      (exDfFull.hasWeekend = false → r3 = []) :=
  C4_deriver_shape exDfFull rfl (fun _ => by decide)

/-- Characters with equal code points are equal. -/
lemma char_eq_of_toNat_eq {c d : Char} (h : c.toNat = d.toNat) : c = d := by
  have hv : c.val = d.val := by
    simpa [Char.toNat, UInt32.toNat] using UInt32.toNat.inj h
  exact Char.eq_of_val_eq hv

/-- Character comparison is connex: mutually non-less characters are equal. -/
lemma chLt_total {c d : Char} (h1 : chLt c d = false) (h2 : chLt d c = false) : c = d := by
  have h1n : ¬ c.toNat < d.toNat := by simpa [chLt] using h1
  have h2n : ¬ d.toNat < c.toNat := by simpa [chLt] using h2
  exact char_eq_of_toNat_eq (by omega)

/-- Character comparison is transitive. -/
lemma chLt_trans {a b c : Char} (h1 : chLt a b = true) (h2 : chLt b c = true) :
    chLt a c = true := by
  simp only [chLt, decide_eq_true_eq] at *
  omega

/-- Lexicographic comparison is connex. -/
lemma strLtL_total : ∀ {as bs : List Char},
    strLtL as bs = false → strLtL bs as = false → as = bs := by
  intro as
  induction as with
  | nil =>
    intro bs h1 h2
    cases bs with
    | nil => rfl
    | cons b bs => simp [strLtL] at h1
  | cons a as ih =>
    intro bs h1 h2
    cases bs with
    | nil => simp [strLtL] at h2
    | cons b bs =>
      unfold strLtL at h1 h2
      rcases hab : chLt a b with _ | _
      · rcases hba : chLt b a with _ | _
        · rw [hab, hba] at h1 h2
          simp only [if_false, Bool.false_eq_true] at h1 h2
          rw [chLt_total hab hba, ih h1 h2]
        · rw [hba] at h2
          simp at h2
      · rw [hab] at h1
        simp at h1

/-- String comparison is connex. -/
lemma strLt_total {a b : String} (h1 : strLt a b = false) (h2 : strLt b a = false) :
    a = b :=
  String.ext (strLtL_total h1 h2)

/-- Lexicographic comparison is transitive. -/
lemma strLtL_trans : ∀ {as bs cs : List Char},
    strLtL as bs = true → strLtL bs cs = true → strLtL as cs = true := by
  intro as
  induction as with
  | nil =>
    intro bs cs h1 h2
    cases bs with
    | nil => simp [strLtL] at h1
    | cons b bs =>
      cases cs with
      | nil => simp [strLtL] at h2
      | cons c cs => simp [strLtL]
  | cons a as ih =>
    intro bs cs h1 h2
    cases bs with
    | nil => simp [strLtL] at h1
    | cons b bs =>
      cases cs with
      | nil => simp [strLtL] at h2
      | cons c cs =>
        unfold strLtL at h1 h2 ⊢
        rcases hab : chLt a b with _ | _
        · rcases hba : chLt b a with _ | _
          · obtain rfl := chLt_total hab hba
            rw [hab] at h1
            simp only [Bool.false_eq_true, if_false] at h1
            rcases hac : chLt a c with _ | _
            · rcases hca : chLt c a with _ | _
              · obtain rfl := chLt_total hac hca
                rw [hac] at h2
                simp only [Bool.false_eq_true, if_false] at h2 ⊢
                exact ih h1 h2
              · rw [hac, hca] at h2
                simp at h2
            · simp
          · rw [hba] at h1
            simp [hab] at h1
        · rcases hbc : chLt b c with _ | _
          · rcases hcb : chLt c b with _ | _
            · obtain rfl := chLt_total hbc hcb
              rw [hab]
              simp
            · rw [hbc, hcb] at h2
              simp at h2
          · rw [chLt_trans hab hbc]
            simp

/-- String comparison is transitive. -/
lemma strLt_trans {a b c : String} (h1 : strLt a b = true) (h2 : strLt b c = true) :
    strLt a c = true :=
  strLtL_trans h1 h2

/-- Non-strict string comparison. -/
def strLe (a b : String) : Bool := strLt a b || a == b

/-- Membership after a sorted insertion. -/
lemma mem_sortedInsert_strLt {x : String} :
    ∀ {l : List String} {a}, a ∈ sortedInsert strLt x l → a = x ∨ a ∈ l := by
  intro l
  induction l with
  | nil =>
    intro a ha
    simp [sortedInsert] at ha
    exact Or.inl ha
  | cons y ys ih =>
    intro a ha
    unfold sortedInsert at ha
    split_ifs at ha with h1 h2
    · exact Or.inr ha
    · rcases List.mem_cons.mp ha with h | h
      · exact Or.inl h
      · exact Or.inr h
    · rcases List.mem_cons.mp ha with h | h
      · exact Or.inr (by simp [h])
      · rcases ih h with h3 | h3
        · exact Or.inl h3
        · exact Or.inr (List.mem_cons_of_mem _ h3)

/-- A sorted insertion preserves strict sortedness. -/
lemma pairwise_sortedInsert_strLt {x : String} :
    ∀ {l : List String}, l.Pairwise (fun a b => strLt a b = true) →
      (sortedInsert strLt x l).Pairwise (fun a b => strLt a b = true) := by
  intro l
  induction l with
  | nil => intro _; simp [sortedInsert]
  | cons y ys ih =>
    intro h
    rcases List.pairwise_cons.mp h with ⟨hy, hys⟩
    unfold sortedInsert
    split_ifs with h1 h2
    · exact h
    · refine List.pairwise_cons.mpr ⟨?_, h⟩
      intro b hb
      rcases List.mem_cons.mp hb with rfl | hb'
      · exact h2
      · exact strLt_trans h2 (hy b hb')
    · refine List.pairwise_cons.mpr ⟨?_, ih hys⟩
      intro b hb
      rcases mem_sortedInsert_strLt hb with rfl | hb'
      · rcases hyb : strLt y b with _ | _
        · rw [Bool.not_eq_true] at h2
          exact absurd (strLt_total h2 hyb) h1
        · rfl
      · exact hy b hb'

/-- Folding sorted insertions over any sorted accumulator stays sorted. -/
lemma pairwise_foldl_sortedInsert :
    ∀ (l acc : List String), acc.Pairwise (fun a b => strLt a b = true) →
      (l.foldl (fun acc k => sortedInsert strLt k acc) acc).Pairwise
        (fun a b => strLt a b = true) := by
  intro l
  induction l with
  | nil => intro acc hacc; exact hacc
  | cons k ks ih => intro acc hacc; exact ih _ (pairwise_sortedInsert_strLt hacc)

/-- The groupby key index is strictly sorted. -/
lemma pairwise_groupKeys_strLt (l : List String) :
    (groupKeys strLt l).Pairwise (fun a b => strLt a b = true) :=
  pairwise_foldl_sortedInsert l [] (by simp)

/-- The per-category mean series is strictly sorted on its keys. -/
lemma catGroupMeans_pairwise (df : DataFrame) :
    (catGroupMeans df).Pairwise (fun p q => strLt p.1 q.1 = true) := by
  unfold catGroupMeans
  exact List.pairwise_map.mpr
    (List.Pairwise.imp (fun h => h) (pairwise_groupKeys_strLt _))

/-- Specification of the `idxmax` scan over the tail of a key-sorted series:
the result dominates every non-NaN value, and its value only repeats at keys
not smaller than the chosen one (the scan keeps the first maximum). -/
lemma seriesIdxmaxGo_spec :
    ∀ (l : List (String × Option ℚ)) (bk : String) (bv : ℚ),
      (∀ p ∈ l, strLt bk p.1 = true) →
      l.Pairwise (fun p q => strLt p.1 q.1 = true) →
      (seriesIdxmaxGo bk bv l = (bk, bv) ∨
        (((seriesIdxmaxGo bk bv l).1, some (seriesIdxmaxGo bk bv l).2) ∈ l ∧
          bv < (seriesIdxmaxGo bk bv l).2)) ∧
      bv ≤ (seriesIdxmaxGo bk bv l).2 ∧
      (∀ p ∈ l, ∀ w, p.2 = some w → w ≤ (seriesIdxmaxGo bk bv l).2) ∧
      (∀ p ∈ l, p.2 = some (seriesIdxmaxGo bk bv l).2 →
        strLe (seriesIdxmaxGo bk bv l).1 p.1 = true) ∧
      ((seriesIdxmaxGo bk bv l).2 = bv → seriesIdxmaxGo bk bv l = (bk, bv)) := by
  intro l
  induction l with
  | nil =>
    intro bk bv _ _
    exact ⟨Or.inl rfl, le_refl _, by simp, by simp, fun _ => rfl⟩
  | cons p rest ih =>
    intro bk bv hb hpw
    obtain ⟨k, ov⟩ := p
    rcases List.pairwise_cons.mp hpw with ⟨hk, hrest⟩
    cases ov with
    | none =>
      have hb2 : ∀ q ∈ rest, strLt bk q.1 = true :=
        fun q hq => hb q (List.mem_cons_of_mem _ hq)
      obtain ⟨c1, c2, c3, c4, c5⟩ := ih bk bv hb2 hrest
      have hgo : seriesIdxmaxGo bk bv ((k, none) :: rest) = seriesIdxmaxGo bk bv rest := rfl
      rw [hgo]
      refine ⟨?_, c2, ?_, ?_, c5⟩
      · rcases c1 with h | ⟨hm, hlt⟩
        · exact Or.inl h
        · exact Or.inr ⟨List.mem_cons_of_mem _ hm, hlt⟩
      · intro q hq w hw
        rcases List.mem_cons.mp hq with rfl | hq2
        · simp at hw
        · exact c3 q hq2 w hw
      · intro q hq hw
        rcases List.mem_cons.mp hq with rfl | hq2
        · simp at hw
        · exact c4 q hq2 hw
    | some v =>
      by_cases hlt : bv < v
      · obtain ⟨c1, c2, c3, c4, c5⟩ := ih k v (fun q hq => hk q hq) hrest
        have hgo : seriesIdxmaxGo bk bv ((k, some v) :: rest) = seriesIdxmaxGo k v rest := by
          simp [seriesIdxmaxGo, hlt]
        rw [hgo]
        refine ⟨?_, le_of_lt (lt_of_lt_of_le hlt c2), ?_, ?_, ?_⟩
        · rcases c1 with h | ⟨hm, hv2⟩
          · exact Or.inr ⟨by rw [h]; exact List.mem_cons_self _ _, by rw [h]; exact hlt⟩
          · exact Or.inr ⟨List.mem_cons_of_mem _ hm, lt_trans hlt hv2⟩
        · intro q hq w hw
          rcases List.mem_cons.mp hq with rfl | hq2
          · obtain rfl : v = w := Option.some.inj hw
            exact c2
          · exact c3 q hq2 w hw
        · intro q hq hw
          rcases List.mem_cons.mp hq with rfl | hq2
          · have hveq : v = (seriesIdxmaxGo k v rest).2 := Option.some.inj hw
            have h5 := c5 hveq.symm
            rw [h5]
            simp [strLe]
          · exact c4 q hq2 hw
        · intro h2
          have hlt2 : bv < (seriesIdxmaxGo k v rest).2 := lt_of_lt_of_le hlt c2
          rw [h2] at hlt2
          exact absurd hlt2 (lt_irrefl _)
      · have hb2 : ∀ q ∈ rest, strLt bk q.1 = true :=
          fun q hq => hb q (List.mem_cons_of_mem _ hq)
        obtain ⟨c1, c2, c3, c4, c5⟩ := ih bk bv hb2 hrest
        have hgo : seriesIdxmaxGo bk bv ((k, some v) :: rest) = seriesIdxmaxGo bk bv rest := by
          simp [seriesIdxmaxGo, hlt]
        rw [hgo]
        have hvle : v ≤ bv := le_of_not_lt hlt
        refine ⟨?_, c2, ?_, ?_, c5⟩
        · rcases c1 with h | ⟨hm, hlt2⟩
          · exact Or.inl h
          · exact Or.inr ⟨List.mem_cons_of_mem _ hm, hlt2⟩
        · intro q hq w hw
          rcases List.mem_cons.mp hq with rfl | hq2
          · obtain rfl : v = w := Option.some.inj hw
            exact le_trans hvle c2
          · exact c3 q hq2 w hw
        · intro q hq hw
          rcases List.mem_cons.mp hq with rfl | hq2
          · have hveq : v = (seriesIdxmaxGo bk bv rest).2 := Option.some.inj hw
            have hbv : (seriesIdxmaxGo bk bv rest).2 = bv :=
              le_antisymm (hveq ▸ hvle) c2
            have h5 := c5 hbv
            rw [h5]
            have hlek := hb (k, some v) (List.mem_cons_self _ _)
            simp [strLe, hlek]
          · exact c4 q hq2 hw

/-- Specification of `Series.idxmax` on a key-sorted series with a non-NaN
value: it returns the key of a maximal value, and among the keys attaining
the maximum it returns the smallest (first in sorted order). -/
lemma seriesIdxmax_spec :
    ∀ l : List (String × Option ℚ),
      l.Pairwise (fun p q => strLt p.1 q.1 = true) →
      l.any (fun p => p.2.isSome) = true →
      ∃ k v, seriesIdxmax l = .ok k ∧ (k, some v) ∈ l ∧
        (∀ p ∈ l, ∀ w, p.2 = some w → w ≤ v) ∧
        (∀ p ∈ l, p.2 = some v → strLe k p.1 = true) := by
  intro l
  induction l with
  | nil => intro _ h; simp at h
  | cons p rest ih =>
    intro hpw hs
    obtain ⟨k0, ov⟩ := p
    rcases List.pairwise_cons.mp hpw with ⟨hk0, hrest⟩
    cases ov with
    | none =>
      obtain ⟨k, v, h1, h2, h3, h4⟩ := ih hrest (by simpa using hs)
      refine ⟨k, v, h1, List.mem_cons_of_mem _ h2, ?_, ?_⟩
      · intro q hq w hw
        rcases List.mem_cons.mp hq with rfl | hq2
        · simp at hw
        · exact h3 q hq2 w hw
      · intro q hq hw
        rcases List.mem_cons.mp hq with rfl | hq2
        · simp at hw
        · exact h4 q hq2 hw
    | some v0 =>
      obtain ⟨c1, c2, c3, c4, c5⟩ :=
        seriesIdxmaxGo_spec rest k0 v0 (fun q hq => hk0 q hq) hrest
      refine ⟨(seriesIdxmaxGo k0 v0 rest).1, (seriesIdxmaxGo k0 v0 rest).2, rfl, ?_, ?_, ?_⟩
      · rcases c1 with h | ⟨hm, _⟩
        · rw [h]; exact List.mem_cons_self _ _
        · exact List.mem_cons_of_mem _ hm
      · intro q hq w hw
        rcases List.mem_cons.mp hq with rfl | hq2
        · obtain rfl : v0 = w := Option.some.inj hw
          exact c2
        · exact c3 q hq2 w hw
      · intro q hq hw
        rcases List.mem_cons.mp hq with rfl | hq2
        · have hveq : v0 = (seriesIdxmaxGo k0 v0 rest).2 := Option.some.inj hw
          have h5 := c5 hveq.symm
          rw [h5]
          simp [strLe]
        · exact c4 q hq2 hw

/-- C7 (amended): with a crime-category column, a target column and at least
one non-NaN per-category rate, rule 1 emits exactly one HIGH finding carrying
the catalogue prescriptions of the selected category; the selected category
attains the maximal high-risk fraction, and among the tied maximizers it is
the one whose label sorts first (pandas groupby sorts keys; idxmax then takes
the first maximum), not the first-encountered category of the dataset. -/
theorem C7_dominant_category_rule (df : DataFrame)
    (hc : df.hasCrimeCategory = true) (hHR : df.hasHighRisk = true)
    (hs : (catGroupMeans df).any (fun p => p.2.isSome) = true) :
    ∃ k v,
      dominantCategory df = .ok k ∧
      rule1 df = .ok [{ finding := "'" ++ k ++ "' has the highest risk rate ("
                          ++ fmtPct1 (((seriesMax (catGroupMeans df)).getD 0) * 100)
                          ++ "%)",
                        priority := "HIGH",
                        prescriptions := prescriptionsGet k }] ∧
      (k, some v) ∈ catGroupMeans df ∧
      (∀ p ∈ catGroupMeans df, ∀ w, p.2 = some w → w ≤ v) ∧
      (∀ p ∈ catGroupMeans df, p.2 = some v → strLe k p.1 = true) := by
  obtain ⟨k, v, h1, h2, h3, h4⟩ :=
    seriesIdxmax_spec (catGroupMeans df) (catGroupMeans_pairwise df) hs
  refine ⟨k, v, h1, ?_, h2, h3, h4⟩
  simp [rule1, hc, hHR, dominantCategory, h1]

/-- A row carrying only a crime category and a high-risk flag. -/
def mkCatRow (c : String) (hr : ℚ) : Row :=
  { hour := none, isWeekend := none, crimeCategory := some c, victAge := none,
    isCampusSpecific := none, highRisk := some hr }

/-- The spec's dominant-category scenario: category A with high-risk fraction
0.8, category B with 0.2. -/
def exDf7 : DataFrame :=
  { hasHour := false, hasWeekend := false, hasCrimeCategory := true,
    hasVictAge := false, hasCampusSpecific := false, hasHighRisk := true,
    rows := [mkCatRow "A" 1, mkCatRow "A" 1, mkCatRow "A" 1, mkCatRow "A" 1,
             mkCatRow "A" 0, mkCatRow "B" 1, mkCatRow "B" 0, mkCatRow "B" 0,
             mkCatRow "B" 0, mkCatRow "B" 0] }

/-- C7 (witness): on the 0.8-versus-0.2 dataset the dominant-category rule
selects A, and the amended statement holds there. -/
theorem C7_dominant_category_rule_witness :
    dominantCategory exDf7 = .ok "A" ∧
    catGroupMean exDf7 "A" = some (4/5) ∧
    catGroupMean exDf7 "B" = some (1/5) ∧
    (∃ k v,
      dominantCategory exDf7 = .ok k ∧
      rule1 exDf7 = .ok [{ finding := "'" ++ k ++ "' has the highest risk rate ("
                             ++ fmtPct1 (((seriesMax (catGroupMeans exDf7)).getD 0) * 100)
                             ++ "%)",
                           priority := "HIGH",
                           prescriptions := prescriptionsGet k }] ∧
      (k, some v) ∈ catGroupMeans exDf7 ∧
      (∀ p ∈ catGroupMeans exDf7, ∀ w, p.2 = some w → w ≤ v) ∧
      (∀ p ∈ catGroupMeans exDf7, p.2 = some v → strLe k p.1 = true)) := by
  have hkeys : catKeys exDf7 = ["A", "B"] := by decide
  have hfA : (exDf7.rows.filter (fun r => r.crimeCategory = some "A")).filterMap
      Row.highRisk = [1, 1, 1, 1, 0] := by decide
  have hfB : (exDf7.rows.filter (fun r => r.crimeCategory = some "B")).filterMap
      Row.highRisk = [1, 0, 0, 0, 0] := by decide
  have hA : catGroupMean exDf7 "A" = some (4/5) := by
    unfold catGroupMean
    rw [hfA]
    norm_num [seriesMean]
  have hB : catGroupMean exDf7 "B" = some (1/5) := by
    unfold catGroupMean
    rw [hfB]
    norm_num [seriesMean]
  have hmeans : catGroupMeans exDf7 = [("A", some (4/5)), ("B", some (1/5))] := by
    unfold catGroupMeans
    rw [hkeys]
    simp [hA, hB]
  have hdom : dominantCategory exDf7 = .ok "A" := by
    unfold dominantCategory
    rw [hmeans]
    show Except.ok (seriesIdxmaxGo "A" (4/5) [("B", some (1/5))]).1 = .ok "A"
    rw [show seriesIdxmaxGo "A" (4/5) [("B", some (1/5))] =
          seriesIdxmaxGo "A" (4/5) [] from by
        simp [seriesIdxmaxGo]
        norm_num]
    rfl
  exact ⟨hdom, hA, hB,
    C7_dominant_category_rule exDf7 rfl rfl (by rw [hmeans]; decide)⟩

/-- A tie dataset in which category B is encountered first but A sorts
first: both categories have high-risk fraction 1. -/
def exDf7tie : DataFrame :=
  { hasHour := false, hasWeekend := false, hasCrimeCategory := true,
    hasVictAge := false, hasCampusSpecific := false, hasHighRisk := true,
    rows := [mkCatRow "B" 1, mkCatRow "A" 1] }

/-- C7 (counterexample): on a tie, the code does not break ties by
first-encountered order — B is encountered first and ties with A at fraction
1, yet `idxmax` over the sorted groupby picks A (alphabetical order). -/
theorem C7_tie_break_counterexample :
    dedupFirst (exDf7tie.rows.filterMap Row.crimeCategory) = ["B", "A"] ∧
    catGroupMean exDf7tie "A" = some 1 ∧
    catGroupMean exDf7tie "B" = some 1 ∧
    dominantCategory exDf7tie = .ok "A" := by
  have hkeys : catKeys exDf7tie = ["A", "B"] := by decide
  have hfA : (exDf7tie.rows.filter (fun r => r.crimeCategory = some "A")).filterMap
      Row.highRisk = [1] := by decide
  have hfB : (exDf7tie.rows.filter (fun r => r.crimeCategory = some "B")).filterMap
      Row.highRisk = [1] := by decide
  have hA : catGroupMean exDf7tie "A" = some 1 := by
    unfold catGroupMean
    rw [hfA]
    norm_num [seriesMean]
  have hB : catGroupMean exDf7tie "B" = some 1 := by
    unfold catGroupMean
    rw [hfB]
    norm_num [seriesMean]
  have hmeans : catGroupMeans exDf7tie = [("A", some 1), ("B", some 1)] := by
    unfold catGroupMeans
    rw [hkeys]
    simp [hA, hB]
  refine ⟨by decide, hA, hB, ?_⟩
  unfold dominantCategory
  rw [hmeans]
  show Except.ok (seriesIdxmaxGo "A" 1 [("B", some 1)]).1 = .ok "A"
  rw [show seriesIdxmaxGo "A" 1 [("B", some 1)] = seriesIdxmaxGo "A" 1 [] from by
    simp [seriesIdxmaxGo]]
  rfl

/-- Every entry of a list is bounded by the running maximum of its counts. -/
lemma le_foldr_max :
    ∀ (l : List (String × ℕ)) (p : String × ℕ), p ∈ l →
      p.2 ≤ l.foldr (fun q m => max q.2 m) 0 := by
  intro l
  induction l with
  | nil => intro p hp; simp at hp
  | cons q rest ih =>
    intro p hp
    rcases List.mem_cons.mp hp with rfl | hp2
    · exact le_max_left _ _
    · exact le_trans (ih p hp2) (le_max_right _ _)

/-- `filterMap` only depends on the function's values on the list. -/
lemma filterMap_congr_mem {f g : α → Option β} :
    ∀ {l : List α}, (∀ a ∈ l, f a = g a) → l.filterMap f = l.filterMap g := by
  intro l
  induction l with
  | nil => intro _; rfl
  | cons a as ih =>
    intro h
    rw [List.filterMap_cons, List.filterMap_cons, h a (List.mem_cons_self _ _),
        ih (fun b hb => h b (List.mem_cons_of_mem _ hb))]

/-- C8 (amended): with a crime-category column, rule 4 emits one finding per
top-3-by-count category that has a catalogue entry (at most three), and an
emitted finding's priority is HIGH exactly when its category's count equals
the maximum count among the top 3 — so a tie at the maximum yields several
HIGH findings, and MEDIUM goes to the strictly less frequent ones. -/
theorem C8_top_volume_rule (df : DataFrame) (hc : df.hasCrimeCategory = true) :
    ∃ fs, rule4 df = .ok fs ∧ fs.length ≤ 3 ∧
      fs = (topCrimeCounts df).filterMap (fun p =>
        (PRESCRIPTIONS.lookup p.1).map (fun ps =>
          { finding := "'" ++ p.1 ++ "' accounts for " ++ fmtThousands p.2 ++ " incidents",
            priority := if p.2 = topCountsMax df then "HIGH" else "MEDIUM",
            prescriptions := ps })) := by
  refine ⟨rule4Findings df, by simp [rule4, hc], rule4Findings_length_le df, ?_⟩
  unfold rule4Findings
  apply filterMap_congr_mem
  intro p hp
  have hle : p.2 ≤ topCountsMax df := le_foldr_max (topCrimeCounts df) p hp
  cases hl : PRESCRIPTIONS.lookup p.1 with
  | none => simp [hl]
  | some ps =>
    have hpr : (if p.2 < topCountsMax df then "MEDIUM" else "HIGH")
        = (if p.2 = topCountsMax df then "HIGH" else "MEDIUM") := by
      by_cases he : p.2 = topCountsMax df
      · rw [if_neg (by omega), if_pos he]
      · rw [if_pos (lt_of_le_of_ne hle he), if_neg he]
    simp only [hl]
    rw [hpr]
    rfl

/-- Three theft rows and one assault row: a unique most frequent category. -/
def exDf8w : DataFrame :=
  { hasHour := false, hasWeekend := false, hasCrimeCategory := true,
    hasVictAge := false, hasCampusSpecific := false, hasHighRisk := true,
    rows := [mkCatRow "THEFT/ROBBERY" 1, mkCatRow "THEFT/ROBBERY" 1,
             mkCatRow "THEFT/ROBBERY" 0, mkCatRow "ASSAULT/VIOLENCE" 0] }

/-- C8 (witness): with a unique most frequent category the priorities are
HIGH for it and MEDIUM for the runner-up. -/
theorem C8_top_volume_rule_witness :
    (∃ fs, rule4 exDf8w = .ok fs ∧ fs.length ≤ 3 ∧
      fs = (topCrimeCounts exDf8w).filterMap (fun p =>
        (PRESCRIPTIONS.lookup p.1).map (fun ps =>
          { finding := "'" ++ p.1 ++ "' accounts for " ++ fmtThousands p.2 ++ " incidents",
            priority := if p.2 = topCountsMax exDf8w then "HIGH" else "MEDIUM",
            prescriptions := ps }))) ∧
    (rule4 exDf8w).map (List.map Finding.priority) = .ok ["HIGH", "MEDIUM"] :=
  ⟨C8_top_volume_rule exDf8w rfl, by decide⟩

/-- Two theft rows and two assault rows: a tie for most frequent. -/
def exDf8tie : DataFrame :=
  { hasHour := false, hasWeekend := false, hasCrimeCategory := true,
    hasVictAge := false, hasCampusSpecific := false, hasHighRisk := true,
    rows := [mkCatRow "THEFT/ROBBERY" 1, mkCatRow "THEFT/ROBBERY" 0,
             mkCatRow "ASSAULT/VIOLENCE" 1, mkCatRow "ASSAULT/VIOLENCE" 0] }

/-- C8 (counterexample): with two categories tied for most frequent, both
emitted findings get priority HIGH — not MEDIUM for "all the others
emitted" as the claim states. -/
theorem C8_tie_counterexample :
    topCrimeCounts exDf8tie = [("THEFT/ROBBERY", 2), ("ASSAULT/VIOLENCE", 2)] ∧
    (rule4 exDf8tie).map (List.map Finding.priority) = .ok ["HIGH", "HIGH"] := by
  constructor
  · decide
  · decide
